import Mathlib

/-!
Shallow embedding of the token-lifecycle core of the schedule_project
repository (src/web/auth.py, src/web/routes/auth.py, src/tools/hash/hash.py,
src/config/settings.py), together with theorems settling the spec claims.

Time is modelled as an integer number of seconds since the epoch; a
`timedelta` is an integer number of seconds.  External collaborators are
modelled explicitly: the Redis store as a list of keyed entries with absolute
expiry times, the SQL credential store as a list of `AdminUser` records, and
the bcrypt facility as a deterministic hash (only the match/mismatch outcome
matters to this core).
-/

namespace ScheduleAuth

/-- Model of `db/models/models.py` `AdminUser`: the admin credential record.  Fields
not read by the auth core (`id`, `created_at`) are omitted. -/
structure AdminUser where
  username : String
  password_hash : String
  full_name : Option String
  role : String
  is_active : Bool
  last_login : Option Int
deriving DecidableEq, Repr

/-- A decoded JWT payload as built by `create_access_token` /
`create_refresh_token`: the data dict given by the caller — an optional `sub`
claim plus unstructured extra entries — updated with an absolute `exp` and a `type` claim
(`update` overwrites any `exp`/`type` the caller supplied, which is why the
data part carries neither). -/
structure Payload where
  sub : Option String
  extra : List (String × String)
  exp : Int
  type : Option String
deriving DecidableEq, Repr

/-- A token string.  JWT encoding is deterministic, so a well-formed signed
token is determined by its payload and the signing secret; any other string
is `raw`.  Equality of `Tok` values models equality of the token strings. -/
inductive Tok where
  | signed (payload : Payload) (secret : String)
  | raw (s : String)
deriving DecidableEq, Repr

/-- The literal token string, used as the revocation-ledger key material. -/
def tokStr : Tok → String
  | .signed p secret =>
      "jwt." ++ p.sub.getD "-" ++ "."
        ++ String.intercalate ";" (p.extra.map (fun kv => kv.1 ++ "=" ++ kv.2))
        ++ "." ++ toString p.exp ++ "." ++ p.type.getD "-" ++ "." ++ secret
  | .raw s => s

/-- The Redis store: entries `(key, value, absolute expiry time)`. -/
structure RedisState where
  entries : List (String × String × Int)
deriving DecidableEq, Repr

/-- Model of `redis.setex key seconds value`: store `value` under `key` with a TTL of
`seconds`, replacing any previous entry for that key. -/
def RedisState.setex (st : RedisState) (now : Int) (key : String)
    (seconds : Int) (value : String) : RedisState :=
  ⟨(key, value, now + seconds) :: st.entries.filter (fun e => e.1 != key)⟩

/-- Model of `redis.exists key == 1`: the key is present and its TTL has not elapsed. -/
def RedisState.existsKey (st : RedisState) (now : Int) (key : String) : Bool :=
  st.entries.any (fun e => e.1 == key && decide (now < e.2.2))

/-- Embedding of `web/auth.py` `revoke_token`: `redis.setex(f"revoked:{token}", expires_in,
"true")` — records the token string as revoked under the namespaced key. -/
def revoke_token (st : RedisState) (now : Int) (token : String)
    (expires_in : Int) : RedisState :=
  st.setex now ("revoked:" ++ token) expires_in "true"

/-- Embedding of `web/auth.py` `is_token_revoked`: `redis.exists(f"revoked:{token}") == 1`. -/
def is_token_revoked (st : RedisState) (now : Int) (token : String) : Bool :=
  st.existsKey now ("revoked:" ++ token)

/-- Default of `config/settings.py` `JWTSettings.ACCESS_TOKEN_EXPIRE_MINUTES`. -/
def ACCESS_TOKEN_EXPIRE_MINUTES : Int := 30

/-- Default of `config/settings.py` `JWTSettings.REFRESH_TOKEN_EXPIRE_DAYS`. -/
def REFRESH_TOKEN_EXPIRE_DAYS : Int := 7

/-- The caller-supplied `data` dict passed to the token constructors. -/
structure TokenData where
  sub : Option String
  extra : List (String × String)
deriving DecidableEq, Repr

/-- Embedding of `web/auth.py` `create_access_token`: copies `data`, sets
`exp = utcnow() + (expires_delta or timedelta(minutes=30))` and
`type = "access"`, and signs with the configured secret.  `expires_delta`
is a duration, modelled as a natural number of seconds. -/
def create_access_token (secret : String) (now : Int) (data : TokenData)
    (expires_delta : Option Nat) : Tok :=
  .signed
    ⟨data.sub, data.extra,
      now + (expires_delta.map (fun n : Nat => (n : Int))).getD
        (ACCESS_TOKEN_EXPIRE_MINUTES * 60),
      some "access"⟩
    secret

/-- Embedding of `web/auth.py` `create_refresh_token`: copies `data`, sets
`exp = utcnow() + timedelta(days=7)` and `type = "refresh"`, and signs. -/
def create_refresh_token (secret : String) (now : Int) (data : TokenData) : Tok :=
  .signed ⟨data.sub, data.extra, now + REFRESH_TOKEN_EXPIRE_DAYS * 86400,
    some "refresh"⟩ secret

/-- Embedding of `web/auth.py` `decode_token`: `jose.jwt.decode` verifies the signature and
the `exp` claim (expired when `exp < now`, no leeway); the surrounding
`try/except JWTError` catches *every* failure — bad signature, malformed
structure, and `ExpiredSignatureError` alike — and returns `None`. -/
def decode_token (secret : String) (now : Int) : Tok → Option Payload
  | .signed p s => if s = secret then (if p.exp < now then none else some p) else none
  | .raw _ => none

/-- Modelled external bcrypt facility (`tools/hash/hash.py` wraps `bcrypt`):
the stored digest matches exactly the plaintext it was produced from; only
the boolean match/mismatch outcome is visible to this core. -/
def hash_password (password : String) : String :=
  "bcrypt$2b$12$" ++ password

/-- Embedding of `web/auth.py` `verify_password`, via `PasswordHasher.verify_password` /
`bcrypt.checkpw`. -/
def verify_password (plain_password : String) (hashed_password : String) : Bool :=
  hashed_password == hash_password plain_password

/-- The SQL query used by both `authenticate_user` and `get_current_user`:
`select(AdminUser).where(AdminUser.username == username, AdminUser.is_active
== True)`, then `.scalar_one_or_none()`. -/
def find_active_user (db : List AdminUser) (username : String) : Option AdminUser :=
  db.find? (fun u => u.username == username && u.is_active)

/-- Embedding of `web/auth.py` `authenticate_user`: looks up an *active* user by username
(an unknown name and an inactive account both yield no row), then checks the
password; returns `None` on either failure. -/
def authenticate_user (username : String) (password : String)
    (db : List AdminUser) : Option AdminUser :=
  match find_active_user db username with
  | none => none
  | some user =>
      if verify_password password user.password_hash then some user else none

/-- Outcome of `POST /auth/login` (`web/routes/auth.py` `login`): every
failure of `authenticate_user` is the same 401 with detail
«Неверное имя пользователя или пароль». -/
inductive LoginResult where
  | invalidCredentials
  | ok (access_token : Tok) (refresh_token : Tok)
deriving DecidableEq, Repr

/-- Embedding of `web/routes/auth.py` `login`: authenticate, then issue an access token
(default TTL) and a refresh token, both with `data={"sub": user.username}`. -/
def login (secret : String) (now : Int) (db : List AdminUser)
    (username : String) (password : String) : LoginResult :=
  match authenticate_user username password db with
  | none => .invalidCredentials
  | some user =>
      .ok (create_access_token secret now ⟨some user.username, []⟩ none)
        (create_refresh_token secret now ⟨some user.username, []⟩)

/-- The three distinct 401 outcomes of `get_current_user`:
`credentialsException` is «Не удалось проверить учетные данные» (missing
token, undecodable token, missing/empty `sub`, and user-absent-or-inactive
all raise this same object); `tokenRevoked` is «Токен отозван»;
`wrongTokenType` is «Неверный тип токена». -/
inductive AuthError where
  | credentialsException
  | tokenRevoked
  | wrongTokenType
deriving DecidableEq, Repr

/-- Embedding of `web/auth.py` `get_current_user`, the access-path verifier.  Source
order: token extraction (header, else cookie) → `await is_token_revoked` →
`decode_token` → `type` check → `sub` check (`if not username`: `None` and
`""` both fail) → active-user lookup → `last_login` update → return user. -/
def get_current_user (secret : String) (redis : RedisState)
    (db : List AdminUser) (now : Int) (headerToken : Option Tok)
    (cookieToken : Option Tok) : Except AuthError AdminUser :=
  match (match headerToken with | some t => some t | none => cookieToken) with
  | none => .error .credentialsException
  | some token =>
    if is_token_revoked redis now (tokStr token) then .error .tokenRevoked
    else
      match decode_token secret now token with
      | none => .error .credentialsException
      | some payload =>
        if payload.type != some "access" then .error .wrongTokenType
        else
          match payload.sub with
          | none => .error .credentialsException
          | some username =>
            if username == "" then .error .credentialsException
            else
              match find_active_user db username with
              | none => .error .credentialsException
              | some user => .ok { user with last_login := some now }

/-- Outcomes of `POST /auth/refresh` (`web/routes/auth.py`
`refresh_token_endpoint`); each 401 carries a distinct detail string, and
`typeError` is the uncaught `TypeError` (HTTP 500) that `revoke_token(token)`
would raise, called without its required `expires_in` argument. -/
inductive RefreshResult where
  | refreshRevoked
  | invalidRefreshToken
  | wrongTokenType
  | invalidToken
  | userNotFound
  | typeError
  | ok (access_token : Tok) (refresh_token : Tok)
deriving DecidableEq, Repr

/-- In the source the guard is `if is_token_revoked(token_data.refresh_token):`
with no `await`: the tested value is the coroutine object returned by calling
an async function, and a coroutine object is always truthy in Python. -/
def unawaited_coroutine_truthy : Bool := true

/-- Embedding of `web/routes/auth.py` `refresh_token_endpoint`.  The revocation guard
tests an un-awaited coroutine (always truthy), so the 401 «Refresh токен
отозван» branch is taken on every call; the remaining steps (decode, type
check, `if username is None`, active-user lookup, new pair,
`revoke_token(old)`) are embedded as written but are unreachable. -/
def refresh_token_endpoint (secret : String) (redis : RedisState)
    (db : List AdminUser) (now : Int) (refresh_tok : Tok) :
    RefreshResult × RedisState :=
  if unawaited_coroutine_truthy then (.refreshRevoked, redis)
  else
    match decode_token secret now refresh_tok with
    | none => (.invalidRefreshToken, redis)
    | some payload =>
      if payload.type != some "refresh" then (.wrongTokenType, redis)
      else
        match payload.sub with
        | none => (.invalidToken, redis)
        | some username =>
          match find_active_user db username with
          | none => (.userNotFound, redis)
          | some _ =>
            let _new_access := create_access_token secret now ⟨some username, []⟩ none
            let _new_refresh := create_refresh_token secret now ⟨some username, []⟩
            (.typeError, redis)

/-- Embedding of `web/routes/auth.py` `logout`: depends on `get_current_user` for
authentication, then returns `{"message": "Успешный выход"}`.  No call to
`revoke_token` is made; the ledger is returned untouched. -/
def logout (secret : String) (redis : RedisState) (db : List AdminUser)
    (now : Int) (headerToken : Option Tok) (cookieToken : Option Tok) :
    Except AuthError String × RedisState :=
  ((get_current_user secret redis db now headerToken cookieToken).map
    (fun _ => "Успешный выход"), redis)

/-- C1: the spec claims the first `refresh(T)` on a valid, unexpired,
unrevoked refresh token of an active account succeeds and only a second call
fails with `RevokedToken`.  In the source the revocation guard tests an
un-awaited coroutine, which is always truthy, so *every* call — including the
first, on any token whatsoever — fails with the 401 «Refresh токен отозван»
(`RevokedToken`) outcome. -/
theorem refresh_first_call_fails_revoked (secret : String) (redis : RedisState)
    (db : List AdminUser) (now : Int) (tok : Tok) :
    (refresh_token_endpoint secret redis db now tok).1
      = RefreshResult.refreshRevoked := rfl

/-- C5: the spec claims the revocation of the presented refresh token is recorded
in the ledger before a new pair is returned.  In the source no revocation is
ever recorded by the refresh endpoint — the ledger state it returns is
exactly the one it received (the `revoke_token(old)` line is unreachable and,
were it reached, lacks its required `expires_in` argument) — and no token
pair is ever returned. -/
theorem refresh_records_no_revocation (secret : String) (redis : RedisState)
    (db : List AdminUser) (now : Int) (tok : Tok) :
    (refresh_token_endpoint secret redis db now tok).2 = redis
    ∧ ∀ later t, is_token_revoked (refresh_token_endpoint secret redis db now tok).2 later t
        = is_token_revoked redis later t :=
  ⟨rfl, fun _ _ => rfl⟩

/-- C4: the spec claims logout records the presented access token (and
refresh token when supplied) in the revocation ledger with its remaining
lifetime as TTL.  The logout endpoint in the source performs no revocation at all:
the ledger it returns is the one it received, so any token accepted before
logout is still accepted after it. -/
theorem logout_revokes_nothing (secret : String) (redis : RedisState)
    (db : List AdminUser) (now : Int) (headerToken cookieToken : Option Tok) :
    (logout secret redis db now headerToken cookieToken).2 = redis
    ∧ (∀ later t, is_token_revoked (logout secret redis db now headerToken cookieToken).2 later t
        = is_token_revoked redis later t)
    ∧ ∀ later ht ct, get_current_user secret
        (logout secret redis db now headerToken cookieToken).2 db later ht ct
        = get_current_user secret redis db later ht ct :=
  ⟨rfl, fun _ _ => rfl, fun _ _ _ => rfl⟩

/-- C8: after `revoke(token, ttl)` with a positive TTL, `isRevoked(token)` is
true immediately and throughout the TTL window; revoking an already-revoked
token again (same clock, same TTL) leaves the ledger exactly as it was — a
no-op success; and the entry is stored under the key `"revoked:" ++ token`
derived from the literal token string, with a fixed value whose existence is
the signal. -/
theorem revoke_round_trip (st : RedisState) (now : Int) (token : String)
    (ttl : Int) (httl : 0 < ttl) :
    is_token_revoked (revoke_token st now token ttl) now token = true
    ∧ (∀ t, now ≤ t → t < now + ttl →
        is_token_revoked (revoke_token st now token ttl) t token = true)
    ∧ revoke_token (revoke_token st now token ttl) now token ttl
        = revoke_token st now token ttl
    ∧ (revoke_token st now token ttl).entries.head?
        = some ("revoked:" ++ token, "true", now + ttl) := by
  refine ⟨?_, ?_, ?_, rfl⟩
  · simp [is_token_revoked, revoke_token, RedisState.setex, RedisState.existsKey]
    omega
  · intro t _ hlt
    simp [is_token_revoked, revoke_token, RedisState.setex, RedisState.existsKey]
    omega
  · simp [revoke_token, RedisState.setex, List.filter_filter]

/-- Witness for C8 at a concrete ledger, token and TTL. -/
theorem revoke_round_trip_witness :
    is_token_revoked (revoke_token ⟨[]⟩ 0 "tok-abc" 5) 0 "tok-abc" = true :=
  (revoke_round_trip ⟨[]⟩ 0 "tok-abc" 5 (by decide)).1

/-- C9: decoding immediately after issuance returns exactly the input data
plus the computed `exp` (issuance time + TTL, the configured default when no
TTL is supplied), with `type = "access"` for access tokens and
`type = "refresh"` for refresh tokens. -/
theorem issue_decode_round_trip (secret : String) (now : Int)
    (data : TokenData) (expires_delta : Option Nat) :
    decode_token secret now (create_access_token secret now data expires_delta)
      = some ⟨data.sub, data.extra,
          now + (expires_delta.map (fun n : Nat => (n : Int))).getD
            (ACCESS_TOKEN_EXPIRE_MINUTES * 60),
          some "access"⟩
    ∧ decode_token secret now (create_refresh_token secret now data)
      = some ⟨data.sub, data.extra, now + REFRESH_TOKEN_EXPIRE_DAYS * 86400,
          some "refresh"⟩ := by
  constructor
  · cases expires_delta with
    | none =>
        have h : ¬ (now + ACCESS_TOKEN_EXPIRE_MINUTES * 60 < now) := by
          simp [ACCESS_TOKEN_EXPIRE_MINUTES]
        simp [decode_token, create_access_token, h]
    | some n =>
        have h : ¬ (now + (n : Int) < now) := by omega
        simp [decode_token, create_access_token, h]
  · have h : ¬ (now + REFRESH_TOKEN_EXPIRE_DAYS * 86400 < now) := by
      simp [REFRESH_TOKEN_EXPIRE_DAYS]
    simp [decode_token, create_refresh_token, h]

/-- C6: login fails with the single `InvalidCredentials` outcome — the same
401 with detail «Неверное имя пользователя или пароль» — whether the
username is unknown, the account is inactive, or the password does not match
the stored hash; the three cases produce literally equal results, so no
observer of the login result can tell them apart. -/
theorem login_enumeration_safety (secret : String) (now : Int)
    (db : List AdminUser) (username password : String)
    (h : (∀ r ∈ db, r.username ≠ username)
       ∨ (∀ r ∈ db, r.username = username → r.is_active = false)
       ∨ (∀ r ∈ db, r.username = username → r.is_active = true →
            verify_password password r.password_hash = false)) :
    login secret now db username password = LoginResult.invalidCredentials := by
  unfold login authenticate_user
  cases hf : find_active_user db username with
  | none => rfl
  | some r =>
      have hf' : db.find? (fun u => u.username == username && u.is_active) = some r := hf
      have hp := List.find?_some hf'
      have hm := List.mem_of_find?_eq_some hf'
      simp only [Bool.and_eq_true, beq_iff_eq] at hp
      rcases h with h | h | h
      · exact absurd hp.1 (h r hm)
      · rw [h r hm hp.1] at hp
        exact absurd hp.2 (by simp)
      · simp [h r hm hp.1 hp.2]

/-- Witness for C6: an unknown username against a store holding only an
active account for alice. -/
theorem login_enumeration_safety_witness :
    login "k" 0 [⟨"alice", hash_password "pw", none, "editor", true, none⟩]
      "bob" "pw" = LoginResult.invalidCredentials :=
  login_enumeration_safety "k" 0
    [⟨"alice", hash_password "pw", none, "editor", true, none⟩] "bob" "pw"
    (Or.inl (by decide))

/-- C10: a token that decodes with `kind = Access` but carries no `sub`
claim, or an empty-string `sub`, is rejected by `get_current_user` with the
same generic `credentials_exception` used for undecodable tokens (`if not
username` catches both `None` and `""`), and the result is the same for
every credential store — no lookup outcome can make it succeed. -/
theorem authenticate_missing_sub_generic_reject (secret : String)
    (redis : RedisState) (now : Int) (p : Payload)
    (hrev : is_token_revoked redis now (tokStr (Tok.signed p secret)) = false)
    (hexp : ¬ p.exp < now) (hty : p.type = some "access")
    (hsub : p.sub = none ∨ p.sub = some "") :
    ∀ db : List AdminUser,
      get_current_user secret redis db now (some (Tok.signed p secret)) none
        = .error .credentialsException := by
  intro db
  rcases hsub with h | h <;>
    simp [get_current_user, hrev, decode_token, hexp, hty, h]

/-- Witness for C10: a signed, unexpired, unrevoked access token with no
`sub` claim, against an empty ledger and an empty credential store. -/
theorem authenticate_missing_sub_generic_reject_witness :
    get_current_user "k" ⟨[]⟩ [] 0
      (some (Tok.signed ⟨none, [], 100, some "access"⟩ "k")) none
      = .error .credentialsException :=
  authenticate_missing_sub_generic_reject "k" ⟨[]⟩ 0
    ⟨none, [], 100, some "access"⟩ (by decide) (by decide) rfl (Or.inl rfl) []

/-- Counterexample to C2: a token with a valid signature but a past expiry
and a token with a forged signature produce the *same* outcome of
`decode_token` (`None`); the stale case is not distinguished from the forged
case by any separate `ExpiredToken` outcome. -/
theorem decode_collapse_counterexample :
    decode_token "secret-key" 100
        (Tok.signed ⟨some "alice", [], 0, some "access"⟩ "secret-key")
      = decode_token "secret-key" 100
        (Tok.signed ⟨some "alice", [], 500, some "access"⟩ "forged")
    ∧ decode_token "secret-key" 100
        (Tok.signed ⟨some "alice", [], 0, some "access"⟩ "secret-key") = none := by
  constructor <;> rfl

/-- C2 amended: `decode_token` has exactly one failure outcome, `None`,
returned both when the signature does not verify and when the signature is
valid but `exp` is in the past (the `except JWTError` clause catches
`ExpiredSignatureError` together with every other decoding failure); callers
cannot tell stale from forged. -/
theorem decode_single_failure_outcome (secret : String) (now : Int)
    (p : Payload) (s : String) (h : s ≠ secret ∨ p.exp < now) :
    decode_token secret now (Tok.signed p s) = none := by
  rcases h with h | h
  · simp [decode_token, h]
  · by_cases hs : s = secret
    · simp [decode_token, hs, h]
    · simp [decode_token, hs]

/-- Witness for the amended C2: a well-signed token whose expiry has passed
decodes to `None`. -/
theorem decode_single_failure_outcome_witness :
    decode_token "k" 100 (Tok.signed ⟨some "a", [], 0, some "access"⟩ "k") = none :=
  decode_single_failure_outcome "k" 100 ⟨some "a", [], 0, some "access"⟩ "k"
    (Or.inr (by decide))

/-- Counterexample to C3: a malformed (undecodable) token that is present in
the revocation ledger.  The claimed order — decode first — would fail with
`InvalidToken`; the source checks the ledger *before* decoding and fails with
the `RevokedToken` outcome («Токен отозван»), a different error object from
the generic `credentials_exception`. -/
theorem authenticate_ledger_before_decode :
    get_current_user "k" ⟨[("revoked:garbage", "true", 1000)]⟩ [] 100
        (some (Tok.raw "garbage")) none = .error .tokenRevoked
    ∧ AuthError.tokenRevoked ≠ AuthError.credentialsException := by
  constructor
  · rfl
  · decide

/-- C3 amended: `get_current_user` performs, in this order: the
revocation-ledger check (`RevokedToken` if present — even for undecodable
tokens), then decode (failing with the generic `credentials_exception` for
invalid and expired alike), then the kind check (`WrongTokenType` if `type`
is not `"access"`), then a subject-presence check, then a credential
re-lookup restricted to active accounts (absent and inactive both fail with
the same generic `credentials_exception`, not a distinct `InactiveAccount`);
on success it returns the user with `last_login` refreshed. -/
theorem get_current_user_check_sequence (secret : String) (redis : RedisState)
    (db : List AdminUser) (now : Int) (t : Tok) :
    (is_token_revoked redis now (tokStr t) = true →
        get_current_user secret redis db now (some t) none = .error .tokenRevoked)
    ∧ (is_token_revoked redis now (tokStr t) = false →
        decode_token secret now t = none →
        get_current_user secret redis db now (some t) none
          = .error .credentialsException)
    ∧ (∀ p, is_token_revoked redis now (tokStr t) = false →
        decode_token secret now t = some p → p.type ≠ some "access" →
        get_current_user secret redis db now (some t) none
          = .error .wrongTokenType)
    ∧ (∀ p u, is_token_revoked redis now (tokStr t) = false →
        decode_token secret now t = some p → p.type = some "access" →
        p.sub = some u → u ≠ "" → find_active_user db u = none →
        get_current_user secret redis db now (some t) none
          = .error .credentialsException)
    ∧ (∀ p u usr, is_token_revoked redis now (tokStr t) = false →
        decode_token secret now t = some p → p.type = some "access" →
        p.sub = some u → u ≠ "" → find_active_user db u = some usr →
        get_current_user secret redis db now (some t) none
          = .ok { usr with last_login := some now }) := by
  refine ⟨?_, ?_, ?_, ?_, ?_⟩
  · intro hrev
    simp [get_current_user, hrev]
  · intro hrev hdec
    simp [get_current_user, hrev, hdec]
  · intro p hrev hdec hty
    simp [get_current_user, hrev, hdec, hty]
  · intro p u hrev hdec hty hsub hu hfind
    simp [get_current_user, hrev, hdec, hty, hsub, hu, hfind]
  · intro p u usr hrev hdec hty hsub hu hfind
    simp [get_current_user, hrev, hdec, hty, hsub, hu, hfind]

/-- Witness for the amended C3: the success branch — a fresh, unrevoked
access token for an active account flows through all five checks and
returns the user with its `last_login` updated to the verification time. -/
theorem get_current_user_check_sequence_witness :
    get_current_user "k" ⟨[]⟩ [⟨"alice", "h", none, "editor", true, none⟩] 50
        (some (Tok.signed ⟨some "alice", [], 100, some "access"⟩ "k")) none
      = .ok ⟨"alice", "h", none, "editor", true, some 50⟩ :=
  (get_current_user_check_sequence "k" ⟨[]⟩
      [⟨"alice", "h", none, "editor", true, none⟩] 50
      (Tok.signed ⟨some "alice", [], 100, some "access"⟩ "k")).2.2.2.2
    ⟨some "alice", [], 100, some "access"⟩ "alice"
    ⟨"alice", "h", none, "editor", true, none⟩
    (by decide) rfl rfl rfl (by decide) rfl

/-- Counterexample to C7: a well-signed, unexpired token with *no* `type`
claim is rejected by `get_current_user` with the `WrongTokenType` outcome
(«Неверный тип токена»), not with the generic `credentials_exception` that
stands for `InvalidToken`. -/
theorem missing_kind_counterexample :
    get_current_user "k" ⟨[]⟩ [] 100
        (some (Tok.signed ⟨some "alice", [], 1000, none⟩ "k")) none
      = .error .wrongTokenType
    ∧ AuthError.wrongTokenType ≠ AuthError.credentialsException := by
  constructor
  · rfl
  · decide

/-- C7 amended: a token that decodes successfully but whose `type` claim is
absent or not `"access"` is rejected with `WrongTokenType` — the same
outcome as a recognized-but-wrong kind (`payload.get("type") != "access"`
lumps `None` and unknown strings together) — not with `InvalidToken`; the
token is never treated as any default kind. -/
theorem missing_or_unrecognized_kind_wrong_type (secret : String)
    (redis : RedisState) (db : List AdminUser) (now : Int) (p : Payload)
    (hrev : is_token_revoked redis now (tokStr (Tok.signed p secret)) = false)
    (hexp : ¬ p.exp < now) (hty : p.type ≠ some "access") :
    get_current_user secret redis db now (some (Tok.signed p secret)) none
      = .error .wrongTokenType := by
  simp [get_current_user, hrev, decode_token, hexp, hty]

/-- Witness for the amended C7: an unrecognized `type` claim. -/
theorem missing_or_unrecognized_kind_wrong_type_witness :
    get_current_user "k" ⟨[]⟩ [] 0
      (some (Tok.signed ⟨some "alice", [], 60, some "mystery"⟩ "k")) none
      = .error .wrongTokenType :=
  missing_or_unrecognized_kind_wrong_type "k" ⟨[]⟩ [] 0
    ⟨some "alice", [], 60, some "mystery"⟩ (by decide) (by decide) (by decide)

end ScheduleAuth
